import Mathlib

/-
Shallow embedding of the p42r message intake and command dispatch pipeline.

Source files embedded:
  src/core/command_router.py      (CommandRouter: parse_command, route_command,
                                   register_handler, unregister_handler)
  src/adapters/base_adapter.py    (BaseAdapter: handle_platform_message, handle_response)
  src/adapters/telegram_adapter.py (TelegramAdapter: is_authorized, extract_message_info,
                                   the _handle_text_message and _handle_command_message paths)

Python strings are modelled over their character lists; Python dicts keyed by
strings are modelled as functions to Option or as association lists; Python
exceptions are modelled with Except; the adapter's outbound side effects
(send_text_message, send_image_message, os.remove) are modelled as a trace of
Effect values produced by pure functions.
-/

/-- Decidable equality for Except, needed to evaluate concrete parse and
route outcomes. -/
instance excDecEq {ε α : Type} [DecidableEq ε] [DecidableEq α] : DecidableEq (Except ε α) :=
  fun x y =>
    match x, y with
    | Except.ok a, Except.ok b =>
      if h : a = b then isTrue (by rw [h]) else isFalse (fun he => h (Except.ok.inj he))
    | Except.error a, Except.error b =>
      if h : a = b then isTrue (by rw [h]) else isFalse (fun he => h (Except.error.inj he))
    | Except.ok _, Except.error _ => isFalse (fun he => Except.noConfusion he)
    | Except.error _, Except.ok _ => isFalse (fun he => Except.noConfusion he)

/-! ## Python string primitives -/

/-- ASCII whitespace recognised by Python str.strip and str.split
(Python additionally strips some Unicode spaces; the commands handled
by this program are ASCII). -/
def pyIsSpace (c : Char) : Bool :=
  c == ' ' || c == '\t' || c == '\n' || c == '\r' || c == '\x0b' || c == '\x0c'

/-- Strip leading and trailing whitespace from a character list. -/
def pyStripList (l : List Char) : List Char :=
  ((l.dropWhile pyIsSpace).reverse.dropWhile pyIsSpace).reverse

/-- Python str.strip() with no argument. -/
def pyStrip (s : String) : String :=
  String.mk (pyStripList s.data)

/-- Helper for pySplit: accumulate the current word (reversed) while scanning. -/
def pyWordsAux : List Char → List Char → List String
  | [], acc => if acc.isEmpty then [] else [String.mk acc.reverse]
  | c :: rest, acc =>
    if pyIsSpace c then
      if acc.isEmpty then pyWordsAux rest []
      else String.mk acc.reverse :: pyWordsAux rest []
    else pyWordsAux rest (c :: acc)

/-- Python str.split() with no argument: split on whitespace runs, no empty parts. -/
def pySplit (s : String) : List String :=
  pyWordsAux s.data []

/-- Python str.lower() (ASCII case mapping; the command names are ASCII). -/
def pyLower (s : String) : String :=
  String.mk (s.data.map Char.toLower)

/-- Python " ".join(parts). -/
def joinSpace : List String → String
  | [] => ""
  | [s] => s
  | s :: rest => s ++ " " ++ joinSpace rest

/-- A single-quote character, used in Python error messages. -/
def pyQuote : String :=
  String.mk [Char.ofNat 39]

/-- Python "needle in haystack" prefix test on character lists. -/
def leadsWith : List Char → List Char → Bool
  | [], _ => true
  | _ :: _, [] => false
  | a :: as, b :: bs => a == b && leadsWith as bs

/-- Contiguous-sublist test on character lists. -/
def hasSubList (needle : List Char) : List Char → Bool
  | [] => needle.isEmpty
  | c :: rest => leadsWith needle (c :: rest) || hasSubList needle rest

/-- Python substring containment: "needle in hay". -/
def pyInStr (needle hay : String) : Bool :=
  hasSubList needle.data hay.data

/-! ## Python int() -/

/-- Scanner for the digit part of a Python int literal after the first digit:
digits with single underscores that must sit between digits.  The Bool
argument records whether the previous character was an underscore. -/
def pyIntRun : List Char → Bool → Bool
  | [], afterUnd => !afterUnd
  | c :: rest, afterUnd =>
    if c == '_' then !afterUnd && pyIntRun rest true
    else c.isDigit && pyIntRun rest false

/-- The unsigned body of a Python int literal: a digit followed by digits and
well-placed underscores. -/
def pyIntBody : List Char → Bool
  | [] => false
  | c :: rest => c.isDigit && pyIntRun rest false

/-- Drop the underscores of an accepted int literal body. -/
def stripUnders (l : List Char) : List Char :=
  l.filter (fun c => !(c == '_'))

/-- Decimal value of a digit list. -/
def digitsVal (l : List Char) : Nat :=
  l.foldl (fun a c => a * 10 + (c.toNat - 48)) 0

/-- The message of the ValueError raised by Python int() on a bad literal. -/
def invalidIntMsg (s : String) : String :=
  "invalid literal for int() with base 10: " ++ pyQuote ++ s ++ pyQuote

/-- Python int(s) on a str argument: strips whitespace, accepts an optional
sign, then decimal digits with well-placed underscores; raises ValueError
otherwise (the error carries the offending literal). -/
def pyInt (s : String) : Except String Int :=
  match (pyStripList s.data) with
  | '+' :: rest =>
    if pyIntBody rest then Except.ok (Int.ofNat (digitsVal (stripUnders rest)))
    else Except.error (invalidIntMsg s)
  | '-' :: rest =>
    if pyIntBody rest then Except.ok (-(Int.ofNat (digitsVal (stripUnders rest))))
    else Except.error (invalidIntMsg s)
  | l =>
    if pyIntBody l then Except.ok (Int.ofNat (digitsVal (stripUnders l)))
    else Except.error (invalidIntMsg s)

/-! ## Data model -/

/-- A Python value that can appear as a chat identifier: the Telegram library
hands over ints, configuration may hold strings. -/
inductive PyVal where
  | pstr : String → PyVal
  | pint : Int → PyVal
deriving DecidableEq

/-- Python str() on such a value. -/
def pyStr : PyVal → String
  | PyVal.pstr s => s
  | PyVal.pint n => toString n

/-- The message_info dict built by TelegramAdapter.extract_message_info. -/
structure MessageInfo where
  chat_id : PyVal
  user_id : Option String
  username : Option String
  text : String
  message_id : Int
  date : Int
  is_recent : Bool
deriving DecidableEq

/-- A value stored in a parsed-argument dict: parse_command stores strings,
ints and None; route_command additionally stores the adapter context under
the key _context. -/
inductive Value where
  | vStr : String → Value
  | vInt : Int → Value
  | vNone : Value
  | vCtx : MessageInfo → Value
deriving DecidableEq

/-- The args dict of a parsed command (insertion-ordered, keys unique). -/
abbrev Args := List (String × Value)

/-- A response dict as read by the adapter: the keys success, message, data
and handler, each possibly absent (data absent is modelled as the empty
list, matching response.get of the consumers). -/
structure Resp where
  success : Option Bool
  message : Option String
  data : List (String × String)
  handler : Option String
deriving DecidableEq

/-- CommandRouter._create_error_response. -/
def createErrorResponse (message : String) : Resp :=
  ⟨some false, some message, [], some "router"⟩

/-! ## parse_command -/

/-- An exception escaping CommandRouter.parse_command: the ValueError of
int() on a bad literal, or the IndexError of parts[0] on an empty parts
list (unreachable in fact, kept for faithfulness). -/
inductive ParseExc where
  | valueErr : String → ParseExc
  | indexErr : ParseExc
deriving DecidableEq

/-- The positional args dict of the generic parsing branch:
arg1 = parts[1], arg2 = parts[2], and so on. -/
def genericArgs (rest : List String) : Args :=
  rest.enum.map (fun pr => ("arg" ++ toString (pr.1 + 1), Value.vStr pr.2))

/-- CommandRouter.parse_command (command_router.py lines 69-133).  Strips the
text, drops one leading slash, splits on whitespace, lower-cases the first
token, and shapes the remaining tokens by command name exactly as the
source's if/elif chain does.  The set_password branch calls int() without
a guard, so a bad third token raises; the cleanup branch guards its int()
call and collapses to args = None. -/
def parse_command (text : String) : Except ParseExc (String × Option Args) :=
  let t := pyStrip text
  let t2 := match t.data with
    | '/' :: rest => rest
    | l => l
  if t2.isEmpty then Except.ok ("", none)
  else
    match pySplit (String.mk t2) with
    | [] => Except.error ParseExc.indexErr
    | [p0] => Except.ok (pyLower p0, none)
    | p0 :: p1 :: restTail =>
      let command := pyLower p0
      if command = "run" ∨ command = "exec" ∨ command = "run_screen" then
        Except.ok (command, some [("command", Value.vStr (joinSpace (p1 :: restTail)))])
      else if command = "kill" then
        Except.ok (command, some [("target", Value.vStr p1)])
      else if (command = "ps" ∨ command = "list") ∧ (p0 :: p1 :: restTail).length > 1 then
        Except.ok (command, some [("filter", Value.vStr p1)])
      else if command = "set_password" ∧ (p0 :: p1 :: restTail).length > 1 then
        match restTail with
        | [] => Except.ok (command, some [("password", Value.vStr p1), ("xor_key", Value.vNone)])
        | p2 :: _ =>
          match pyInt p2 with
          | Except.ok k =>
            Except.ok (command, some [("password", Value.vStr p1), ("xor_key", Value.vInt k)])
          | Except.error e => Except.error (ParseExc.valueErr e)
      else if command = "log" ∧ (p0 :: p1 :: restTail).length > 1 then
        Except.ok (command, some [("api_key", Value.vStr p1)])
      else if command = "cleanup" ∧ (p0 :: p1 :: restTail).length > 1 then
        match pyInt p1 with
        | Except.ok k => Except.ok (command, some [("max_age_hours", Value.vInt k)])
        | Except.error _ => Except.ok (command, none)
      else
        let g := genericArgs (p1 :: restTail)
        Except.ok (command, if g.isEmpty then none else some g)

/-! ## Handler registry and router -/

/-- A registered command handler: its unique name, the commands it declares
(get_supported_commands), and handle, which either returns a response dict
or raises (the error side carries the exception message). -/
structure Handler where
  name : String
  commands : List String
  handle : String → Args → Except String Resp

/-- CommandRouter state: the handlers dict and the command_map dict
(command name to handler name), both modelled as functions to Option. -/
structure Registry where
  handlers : String → Option Handler
  command_map : String → Option String

/-- Point update of a string-keyed dict. -/
def mapUpdate {α : Type} (m : String → Option α) (k : String) (v : Option α) :
    String → Option α :=
  fun x => if x = k then v else m x

/-- The command_map loop of register_handler: map each declared command to
the handler name, later list entries overriding earlier ones. -/
def mapCmds (cmds : List String) (hname : String) (m : String → Option String) :
    String → Option String :=
  cmds.foldl (fun acc c => mapUpdate acc c (some hname)) m

/-- CommandRouter.register_handler (lines 20-37): store the handler under its
name and point every declared command at it, overriding existing owners. -/
def register_handler (reg : Registry) (h : Handler) : Registry :=
  ⟨mapUpdate reg.handlers h.name (some h), mapCmds h.commands h.name reg.command_map⟩

/-- CommandRouter.unregister_handler (lines 39-67): if the handler name is
unknown return false; otherwise drop every command_map entry whose value is
that name (current ownership), drop the handler, and return true. -/
def unregister_handler (reg : Registry) (hname : String) : Bool × Registry :=
  match reg.handlers hname with
  | none => (false, reg)
  | some _ =>
    (true,
     ⟨mapUpdate reg.handlers hname none,
      fun c => match reg.command_map c with
        | some n => if n = hname then none else some n
        | none => none⟩)

/-- The router of a fresh CommandRouter: no handlers, no commands. -/
def emptyRegistry : Registry :=
  ⟨fun _ => none, fun _ => none⟩

/-- An exception inside route_command's try block: one escaping
parse_command, the KeyError of self.handlers[handler_name], or an
exception raised by the handler's handle coroutine. -/
inductive RouteExc where
  | parseRaise : ParseExc → RouteExc
  | keyErr : String → RouteExc
  | handlerExc : String → RouteExc
deriving DecidableEq

/-- str(e) for the modelled exceptions: a ValueError prints its message, a
KeyError prints the repr of the missing key, IndexError its fixed text. -/
def excMessage : RouteExc → String
  | RouteExc.parseRaise (ParseExc.valueErr s) => s
  | RouteExc.parseRaise ParseExc.indexErr => "list index out of range"
  | RouteExc.keyErr n => pyQuote ++ n ++ pyQuote
  | RouteExc.handlerExc s => s

/-- Whether a route outcome is the KeyError of the handlers lookup. -/
def isKeyErr {α : Type} : Except RouteExc α → Bool
  | Except.error (RouteExc.keyErr _) => true
  | _ => false

/-- route_command lines 152-156: replace absent args by the empty dict, then
add the context under the key _context when a context was passed (an absent
or empty context dict is falsy and is not added). -/
def buildArgs (args : Option Args) (context : Option MessageInfo) : Args :=
  let a := args.getD []
  match context with
  | some c => a ++ [("_context", Value.vCtx c)]
  | none => a

/-- The body of route_command's try block after parsing (lines 149-170):
reject an empty name, look up the command and the handler, invoke the
handler; exceptions surface on the error side. -/
def dispatchParsed (reg : Registry) (command : String) (args : Option Args)
    (context : Option MessageInfo) : Except RouteExc Resp :=
  if command = "" then Except.ok (createErrorResponse "Empty command")
  else
    match reg.command_map command with
    | none => Except.ok (createErrorResponse ("Unknown command: " ++ command))
    | some handler_name =>
      match reg.handlers handler_name with
      | none => Except.error (RouteExc.keyErr handler_name)
      | some h =>
        match h.handle command (buildArgs args context) with
        | Except.ok r => Except.ok r
        | Except.error e => Except.error (RouteExc.handlerExc e)

/-- route_command's try block (lines 146-170): parse, then dispatch. -/
def routeCommandTry (reg : Registry) (text : String) (context : Option MessageInfo) :
    Except RouteExc Resp :=
  match parse_command text with
  | Except.error e => Except.error (RouteExc.parseRaise e)
  | Except.ok (command, args) => dispatchParsed reg command args context

/-- CommandRouter.route_command (lines 135-174): the whole try/except.  Any
exception is caught and turned into the router-authored error response
whose message is "Routing error: " followed by str(e). -/
def route_command (reg : Registry) (text : String) (context : Option MessageInfo) : Resp :=
  match routeCommandTry reg text context with
  | Except.ok r => r
  | Except.error e => createErrorResponse ("Routing error: " ++ excMessage e)

/-- The value route_command hands back when the handler was reached: the
handler's response unchanged, or the converted exception. -/
def respOf : Except String Resp → Resp
  | Except.ok r => r
  | Except.error e => createErrorResponse ("Routing error: " ++ e)

/-- One registry mutation, for stating the registry invariant. -/
inductive RegOp where
  | reg : Handler → RegOp
  | unreg : String → RegOp

/-- Apply one mutation. -/
def applyOp (r : Registry) : RegOp → Registry
  | RegOp.reg h => register_handler r h
  | RegOp.unreg n => (unregister_handler r n).2

/-- Apply a sequence of mutations in order. -/
def applyOps (r : Registry) (ops : List RegOp) : Registry :=
  ops.foldl applyOp r

/-- The registry consistency invariant: every handler name stored as a value
of command_map is a key of handlers. -/
def Consistent (r : Registry) : Prop :=
  ∀ c h, r.command_map c = some h → (r.handlers h).isSome = true

/-! ## Telegram adapter -/

/-- TelegramAdapter state used by the embedded paths: the stored (string
normalised) authorized chat id and the bot start time; timestamps are
modelled as integers ordered like datetimes. -/
structure TelegramAdapter where
  bot_token : String
  authorized_chat_id : String
  bot_start_time : Int

/-- TelegramAdapter.__init__ (lines 17-22): the configured chat id is
normalised with str() when stored. -/
def mkTelegramAdapter (tok : String) (authorized : PyVal) (start : Int) : TelegramAdapter :=
  ⟨tok, pyStr authorized, start⟩

/-- TelegramAdapter.is_authorized (lines 124-127): str-normalise the chat id
of the context and compare with the stored authorized id. -/
def is_authorized (a : TelegramAdapter) (context : MessageInfo) : Bool :=
  pyStr context.chat_id == a.authorized_chat_id

/-- TelegramAdapter._is_message_recent (lines 155-157):
message_date >= self.bot_start_time. -/
def is_message_recent (a : TelegramAdapter) (message_date : Int) : Bool :=
  decide (message_date ≥ a.bot_start_time)

/-- The fields of a Telegram update that extract_message_info reads; the
message text is Optional there (message.text or fills in the empty
string). -/
structure Update where
  chat_id : PyVal
  user_id : Option PyVal
  username : Option String
  text : Option String
  message_id : Int
  date : Int

/-- TelegramAdapter.extract_message_info (lines 129-153), success path: chat
and user ids str-normalised, text defaulted to the empty string, is_recent
precomputed from the message date. -/
def extract_message_info (a : TelegramAdapter) (u : Update) : MessageInfo :=
  ⟨PyVal.pstr (pyStr u.chat_id), u.user_id.map pyStr, u.username,
   u.text.getD "", u.message_id, u.date, is_message_recent a u.date⟩

/-- An observable outbound action of the adapter pipeline.  routeCall records
that the message text was forwarded to the router (the message_handler);
removeFile records the os.remove call of the artifact cleanup. -/
inductive Effect where
  | sendText : String → Effect
  | sendImage : String → String → Effect
  | removeFile : String → Effect
  | routeCall : String → Effect
deriving DecidableEq

/-- First-match lookup in the data dict (Python dict keys are unique, so
first match is the match). -/
def lookupData (k : String) : List (String × String) → Option String
  | [] => none
  | (k2, v) :: rest => if k2 = k then some v else lookupData k rest

/-- The caption glyph used on a successful response. -/
def picGlyph : String :=
  String.mk [Char.ofNat 0x1F4F8]

/-- The caption glyph used on a failed response. -/
def crossGlyph : String :=
  String.mk [Char.ofNat 0x274C]

/-- BaseAdapter.handle_response (base_adapter.py lines 131-162), as the trace
of sends it performs.  fileExists models os.path.exists.  The text reply is
sent first; if the data dict carries image_path, the image is sent with a
success- or failure-prefixed caption, and os.remove is called exactly when
the file exists and the path contains "/tmp/".  A failing os.remove is
caught inside the block and produces no further action, so the trace does
not depend on the removal outcome. -/
def handle_response (response : Resp) (fileExists : String → Bool) : List Effect :=
  let message := response.message.getD "No message"
  let success := response.success.getD false
  let data := response.data
  Effect.sendText message ::
    (match lookupData "image_path" data with
     | some image_path =>
       let caption :=
         if success then picGlyph ++ " " ++ message else crossGlyph ++ " " ++ message
       Effect.sendImage image_path caption ::
         (if fileExists image_path && pyInStr "/tmp/" image_path then
            [Effect.removeFile image_path]
          else [])
     | none => [])

/-- BaseAdapter.handle_platform_message (lines 95-129) applied to an already
extracted message_info: reject unauthorized senders with a text reply, drop
empty (stripped) text silently, otherwise forward the stripped text and the
message_info to the message handler and deliver its response.  The
message_handler is the router's route_command, modelled as a total function
(route_command converts every exception into a response). -/
def handle_platform_message (a : TelegramAdapter)
    (message_handler : Option (String → MessageInfo → Resp))
    (fileExists : String → Bool) (message_info : MessageInfo) : List Effect :=
  if !(is_authorized a message_info) then [Effect.sendText "Unauthorized access."]
  else
    let text := pyStrip message_info.text
    if text = "" then []
    else
      match message_handler with
      | some handler =>
        Effect.routeCall text :: handle_response (handler text message_info) fileExists
      | none => []

/-- TelegramAdapter._handle_text_message (lines 198-200): plain text goes
straight to handle_platform_message; no freshness check on this path. -/
def handle_text_update (a : TelegramAdapter)
    (message_handler : Option (String → MessageInfo → Resp))
    (fileExists : String → Bool) (u : Update) : List Effect :=
  handle_platform_message a message_handler fileExists (extract_message_info a u)

/-- TelegramAdapter._handle_command_message (lines 202-216): extract, reject
unauthorized senders, reject messages whose is_recent flag is false, then
fall through to handle_platform_message. -/
def handle_command_update (a : TelegramAdapter)
    (message_handler : Option (String → MessageInfo → Resp))
    (fileExists : String → Bool) (u : Update) : List Effect :=
  let message_info := extract_message_info a u
  if !(is_authorized a message_info) then [Effect.sendText "Unauthorized."]
  else if !message_info.is_recent then
    [Effect.sendText "Ignoring old message (sent before bot started)."]
  else handle_platform_message a message_handler fileExists (extract_message_info a u)

/-! ## Concrete fixtures used by witnesses and counterexamples -/

/-- A handler response used by the cleanup fixture. -/
def c1CleanupResp : Resp :=
  ⟨some true, some "cleaned", [], none⟩

/-- A handler owning the cleanup command. -/
def c1CleanupHandler : Handler :=
  ⟨"security", ["cleanup"], fun _ _ => Except.ok c1CleanupResp⟩

/-- A registry where cleanup is mapped. -/
def c1Registry : Registry :=
  register_handler emptyRegistry c1CleanupHandler

/-- An adapter whose authorized chat is 123 and whose start time is 100. -/
def c2Adapter : TelegramAdapter :=
  ⟨"tok", "123", 100⟩

/-- An authorized update sent at time 50, before the adapter start time. -/
def c2StaleUpdate : Update :=
  ⟨PyVal.pint 123, none, none, some "run ls", 1, 50⟩

/-- A message handler standing for the router on the adapter side. -/
def c2Router : String → MessageInfo → Resp :=
  fun _ _ => ⟨some true, some "done", [], none⟩

/-- A file system on which no path exists. -/
def c2NoFs : String → Bool :=
  fun _ => false

/-- A handler whose handle raises. -/
def c3BoomHandler : Handler :=
  ⟨"sys", ["boom"], fun _ _ => Except.error "kaboom"⟩

/-- A registry where boom is mapped to the raising handler. -/
def c3Registry : Registry :=
  register_handler emptyRegistry c3BoomHandler

/-- The response of handler alpha. -/
def c5RespA : Resp :=
  ⟨some true, some "from A", [], none⟩

/-- The response of handler beta. -/
def c5RespB : Resp :=
  ⟨some true, some "from B", [], none⟩

/-- Handler alpha, owning ping first. -/
def c5HandlerA : Handler :=
  ⟨"alpha", ["ping"], fun _ _ => Except.ok c5RespA⟩

/-- Handler beta, re-registering ping. -/
def c5HandlerB : Handler :=
  ⟨"beta", ["ping"], fun _ _ => Except.ok c5RespB⟩

/-- The response of the run handler fixture. -/
def c6Resp : Resp :=
  ⟨some true, some "ran", [], none⟩

/-- A handler owning run. -/
def c6Handler : Handler :=
  ⟨"process", ["run"], fun _ _ => Except.ok c6Resp⟩

/-- An adapter whose authorized chat is 77. -/
def c8Adapter : TelegramAdapter :=
  ⟨"tok", "77", 0⟩

/-- An authorized message whose text is only whitespace. -/
def c8Info : MessageInfo :=
  ⟨PyVal.pstr "77", none, none, "   ", 5, 10, true⟩

/-- A message handler standing for the router on the adapter side. -/
def c8Router : String → MessageInfo → Resp :=
  fun _ _ => ⟨some true, some "reply", [], none⟩

/-- A file system on which no path exists. -/
def c8NoFs : String → Bool :=
  fun _ => false

/-- A response carrying an artifact under the transient root. -/
def c9Resp : Resp :=
  ⟨some true, some "shot", [("image_path", "/tmp/a.png")], none⟩

/-- A file system on which every path exists. -/
def c9Fs : String → Bool :=
  fun _ => true

/-- A handler fixture for the registry invariant. -/
def c10Handler : Handler :=
  ⟨"h10", ["cmd10"], fun _ _ => Except.ok ⟨some true, some "ok", [], none⟩⟩

/-! ## Lemmas about the registry maps -/

/-- Commands not in the registered list keep their previous owner. -/
lemma mapCmds_not_mem (cmds : List String) (hname : String)
    (m : String → Option String) (c : String) (hc : c ∉ cmds) :
    mapCmds cmds hname m c = m c := by
  induction cmds generalizing m with
  | nil => rfl
  | cons d ds ih =>
    have hcd : c ≠ d := fun h => hc (h ▸ List.mem_cons_self d ds)
    have hcds : c ∉ ds := fun h => hc (List.mem_cons_of_mem d h)
    show mapCmds ds hname (mapUpdate m d (some hname)) c = m c
    rw [ih _ hcds]
    simp [mapUpdate, hcd]

/-- Every command in the registered list ends up owned by the new handler. -/
lemma mapCmds_mem (cmds : List String) (hname : String)
    (m : String → Option String) (c : String) (hc : c ∈ cmds) :
    mapCmds cmds hname m c = some hname := by
  induction cmds generalizing m with
  | nil => cases hc
  | cons d ds ih =>
    show mapCmds ds hname (mapUpdate m d (some hname)) c = some hname
    by_cases hcds : c ∈ ds
    · exact ih _ hcds
    · have hcd : c = d := by
        rcases List.mem_cons.mp hc with h | h
        · exact h
        · exact absurd h hcds
      rw [mapCmds_not_mem _ _ _ _ hcds]
      simp [mapUpdate, hcd]

/-- Any owner recorded after registration is the new handler or the old. -/
lemma mapCmds_inv (cmds : List String) (hname : String)
    (m : String → Option String) (c k : String)
    (h : mapCmds cmds hname m c = some k) : k = hname ∨ m c = some k := by
  induction cmds generalizing m with
  | nil => exact Or.inr h
  | cons d ds ih =>
    have h2 : mapCmds ds hname (mapUpdate m d (some hname)) c = some k := h
    rcases ih _ h2 with hk | hk
    · exact Or.inl hk
    · by_cases hcd : c = d
      · left
        have : some hname = some k := by simpa [mapUpdate, hcd] using hk
        exact (Option.some.inj this).symm
      · right
        simpa [mapUpdate, hcd] using hk

/-! ## Lemmas about route_command -/

/-- A raising parse surfaces as the router-authored routing error. -/
lemma route_parse_raise (reg : Registry) (text : String) (ctx : Option MessageInfo)
    (e : ParseExc) (hp : parse_command text = Except.error e) :
    route_command reg text ctx
      = createErrorResponse ("Routing error: " ++ excMessage (RouteExc.parseRaise e)) := by
  unfold route_command routeCommandTry
  rw [hp]

/-- An empty parsed name is rejected before any lookup. -/
lemma route_empty_name (reg : Registry) (text : String) (ctx : Option MessageInfo)
    (a : Option Args) (hp : parse_command text = Except.ok ("", a)) :
    route_command reg text ctx = createErrorResponse "Empty command" := by
  unfold route_command routeCommandTry
  rw [hp]
  rfl

/-- An unmapped nonempty command yields the Unknown command error. -/
lemma route_unknown (reg : Registry) (text : String) (ctx : Option MessageInfo)
    (c : String) (a : Option Args) (hp : parse_command text = Except.ok (c, a))
    (hne : c ≠ "") (hcm : reg.command_map c = none) :
    route_command reg text ctx = createErrorResponse ("Unknown command: " ++ c) := by
  unfold route_command routeCommandTry dispatchParsed
  rw [hp]
  simp only [hne, if_false, hcm]

/-- A mapped command with a registered owner is dispatched to that owner, and
the owner's outcome (response or raised exception converted by the router)
is returned. -/
lemma route_dispatch (reg : Registry) (text : String) (ctx : Option MessageInfo)
    (c : String) (a : Option Args) (hname : String) (h : Handler)
    (hp : parse_command text = Except.ok (c, a)) (hne : c ≠ "")
    (hcm : reg.command_map c = some hname) (hh : reg.handlers hname = some h) :
    route_command reg text ctx = respOf (h.handle c (buildArgs a ctx)) := by
  unfold route_command routeCommandTry dispatchParsed
  rw [hp]
  simp only [hne, if_false, hcm, hh]
  cases hr : h.handle c (buildArgs a ctx) with
  | ok r => simp [respOf, hr]
  | error e => simp [respOf, hr, excMessage]

/-! ## Lemmas about the registry invariant -/

/-- The fresh registry is consistent. -/
lemma consistent_empty : Consistent emptyRegistry := by
  intro c h hc
  cases hc

/-- register_handler preserves consistency. -/
lemma consistent_register (r : Registry) (h : Handler) (hr : Consistent r) :
    Consistent (register_handler r h) := by
  intro c k hc
  rcases mapCmds_inv h.commands h.name r.command_map c k hc with hk | hk
  · simp [register_handler, mapUpdate, hk]
  · have := hr c k hk
    by_cases hkh : k = h.name
    · simp [register_handler, mapUpdate, hkh]
    · simpa [register_handler, mapUpdate, hkh] using this

/-- unregister_handler on a registered name returns true and the filtered
registry. -/
lemma unregister_found (r : Registry) (n : String) (h0 : Handler)
    (hn : r.handlers n = some h0) :
    unregister_handler r n =
      (true,
       ⟨mapUpdate r.handlers n none,
        fun c => match r.command_map c with
          | some m => if m = n then none else some m
          | none => none⟩) := by
  unfold unregister_handler
  rw [hn]

/-- unregister_handler on an unknown name returns false and leaves the
registry unchanged. -/
lemma unregister_not_found (r : Registry) (n : String) (hn : r.handlers n = none) :
    unregister_handler r n = (false, r) := by
  unfold unregister_handler
  rw [hn]

/-- unregister_handler preserves consistency. -/
lemma consistent_unregister (r : Registry) (n : String) (hr : Consistent r) :
    Consistent (unregister_handler r n).2 := by
  intro c k hc
  cases hn : r.handlers n with
  | none =>
    rw [unregister_not_found r n hn] at hc ⊢
    exact hr c k hc
  | some h0 =>
    rw [unregister_found r n h0 hn] at hc ⊢
    simp only at hc ⊢
    cases hcm : r.command_map c with
    | none => rw [hcm] at hc; cases hc
    | some m =>
      rw [hcm] at hc
      dsimp only at hc
      by_cases hmn : m = n
      · rw [if_pos hmn] at hc; cases hc
      · rw [if_neg hmn] at hc
        have hkm : m = k := Option.some.inj hc
        have := hr c k (hkm ▸ hcm)
        have hkn : k ≠ n := hkm ▸ hmn
        simpa [mapUpdate, hkn] using this

/-- Any operation preserves consistency. -/
lemma consistent_applyOp (r : Registry) (op : RegOp) (hr : Consistent r) :
    Consistent (applyOp r op) := by
  cases op with
  | reg h => exact consistent_register r h hr
  | unreg n => exact consistent_unregister r n hr

/-- Any operation sequence preserves consistency. -/
lemma consistent_applyOps (r : Registry) (ops : List RegOp) (hr : Consistent r) :
    Consistent (applyOps r ops) := by
  induction ops generalizing r with
  | nil => exact hr
  | cons op ops ih => exact ih _ (consistent_applyOp r op hr)

/-- On a consistent registry the handlers lookup of route_command cannot
raise: the try block never produces the KeyError outcome. -/
lemma consistent_no_keyerr (reg : Registry) (hr : Consistent reg)
    (text : String) (ctx : Option MessageInfo) :
    isKeyErr (routeCommandTry reg text ctx) = false := by
  unfold routeCommandTry
  cases hp : parse_command text with
  | error e => rfl
  | ok pair =>
    obtain ⟨c, a⟩ := pair
    show isKeyErr (dispatchParsed reg c a ctx) = false
    unfold dispatchParsed
    by_cases hce : c = ""
    · rw [if_pos hce]; rfl
    · rw [if_neg hce]
      cases hcm : reg.command_map c with
      | none => rfl
      | some hname =>
        dsimp only
        cases hh : reg.handlers hname with
        | none =>
          have := hr c hname hcm
          rw [hh] at this
          cases this
        | some h =>
          dsimp only
          cases hr2 : h.handle c (buildArgs a ctx) <;> rfl

/-! ## Claim theorems -/

/-- Claim C3: route_command never lets an exception escape: whatever
exception arises inside its try block (a raising parse, the handlers
KeyError, or a raising handler), the returned value is the router-authored
error response, success false, handler router, whose message carries the
exception's message.  Totality is by construction: route_command is a total
function into Resp. -/
theorem c3_router_catches_exceptions (reg : Registry) (text : String)
    (ctx : Option MessageInfo) (e : RouteExc)
    (h : routeCommandTry reg text ctx = Except.error e) :
    route_command reg text ctx
      = ⟨some false, some ("Routing error: " ++ excMessage e), [], some "router"⟩ := by
  unfold route_command
  rw [h]
  rfl

/-- Witness for C3: a registered handler that raises kaboom yields the
router-authored routing error. -/
theorem c3_witness :
    route_command c3Registry "boom now" none
      = ⟨some false, some ("Routing error: " ++ "kaboom"), [], some "router"⟩ :=
  c3_router_catches_exceptions c3Registry "boom now" none (RouteExc.handlerExc "kaboom")
    (by decide)

/-- Claim C4: is_authorized is true exactly when the str-normalised chat id
of the message equals the configured principal id after its own str
normalisation, so type or formatting differences (numeric against string
form) do not affect the outcome. -/
theorem c4_is_authorized_string_equality (tok : String) (cfg : PyVal) (start : Int)
    (m : MessageInfo) :
    is_authorized (mkTelegramAdapter tok cfg start) m = true
      ↔ pyStr m.chat_id = pyStr cfg := by
  unfold is_authorized mkTelegramAdapter
  simp

/-- Claim C6: the text /run ls -la parses to name run with the single
argument command = "ls -la" (remaining tokens rejoined with single spaces),
and routing that text reaches exactly the handler currently mapped to run,
whose outcome is returned. -/
theorem c6_run_parse_and_dispatch :
    parse_command "/run ls -la"
      = Except.ok ("run", some [("command", Value.vStr "ls -la")])
    ∧ (∀ reg ctx hname h, reg.command_map "run" = some hname →
        reg.handlers hname = some h →
        route_command reg "/run ls -la" ctx
          = respOf (h.handle "run"
              (buildArgs (some [("command", Value.vStr "ls -la")]) ctx))) := by
  constructor
  · decide
  · intro reg ctx hname h hcm hh
    exact route_dispatch reg "/run ls -la" ctx "run"
      (some [("command", Value.vStr "ls -la")]) hname h (by decide) (by decide) hcm hh

/-- Witness for C6: with the run handler registered, routing /run ls -la
returns that handler's response. -/
theorem c6_witness :
    route_command (register_handler emptyRegistry c6Handler) "/run ls -la" none = c6Resp :=
  c6_run_parse_and_dispatch.2 (register_handler emptyRegistry c6Handler) none
    "process" c6Handler rfl rfl

/-- Claim C7: parse_command is a pure function of its input (determinism and
absence of side effects hold by construction in this embedding); parsing
the empty string and the bare marker both yield the empty name with absent
args, and any text parsing to an empty name is rejected by route_command
with the router-authored Empty command error before any lookup. -/
theorem c7_parse_empty_and_reject :
    parse_command "" = Except.ok ("", none)
    ∧ parse_command "/" = Except.ok ("", none)
    ∧ (∀ text a reg ctx, parse_command text = Except.ok ("", a) →
        route_command reg text ctx = createErrorResponse "Empty command") := by
  refine ⟨by decide, by decide, ?_⟩
  intro text a reg ctx hp
  exact route_empty_name reg text ctx a hp

/-- Witness for C7: the bare marker is rejected as Empty command. -/
theorem c7_witness :
    route_command emptyRegistry "/" none = createErrorResponse "Empty command" :=
  c7_parse_empty_and_reject.2.2 "/" none emptyRegistry none (by decide)

/-- Claim C10: after any sequence of register_handler and unregister_handler
calls starting from the empty registry, every handler name stored in
command_map is a key of handlers, and consequently the handlers lookup in
route_command never raises its KeyError for any routed text. -/
theorem c10_registry_invariant (ops : List RegOp) :
    Consistent (applyOps emptyRegistry ops)
    ∧ ∀ text ctx, isKeyErr (routeCommandTry (applyOps emptyRegistry ops) text ctx) = false := by
  have h := consistent_applyOps emptyRegistry ops consistent_empty
  exact ⟨h, fun text ctx => consistent_no_keyerr _ h text ctx⟩

/-- Witness for C10: after registering one handler, its command is owned by
a present handler and routing produces no KeyError outcome. -/
theorem c10_witness :
    ((applyOps emptyRegistry [RegOp.reg c10Handler]).handlers "h10").isSome = true
    ∧ isKeyErr (routeCommandTry (applyOps emptyRegistry [RegOp.reg c10Handler]) "cmd10 x" none)
        = false := by
  have h := c10_registry_invariant [RegOp.reg c10Handler]
  exact ⟨h.1 "cmd10" "h10" rfl, h.2 "cmd10 x" none⟩

/-- Counterexample for C1 as stated.  First: for set_password with a
non-integer third token, parse_command does not yield args = absent — it
raises the ValueError of int() (the un-guarded int call of the
set_password branch).  Second: for cleanup with a non-integer second token
(where parse_command does yield args = absent), route_command does not
surface any parse failure: with a handler mapped to cleanup it invokes
that handler with empty args and returns the handler's response, not a
router-authored failure. -/
theorem c1_claim_counterexample :
    parse_command "set_password abc xyz"
      = Except.error (ParseExc.valueErr (invalidIntMsg "xyz"))
    ∧ route_command c1Registry "cleanup abc" none = c1CleanupResp :=
  ⟨by decide, by decide⟩

/-- Claim C1 as amended: a set_password argument-shape failure escapes
parse_command as a ValueError and route_command converts it into the
router-authored Routing error response (success false, handler router, a
message distinct from Unknown command, no handler invoked); a cleanup
argument-shape failure yields args = absent, after which route_command
treats the command as argument-less — it dispatches to the mapped cleanup
handler with only the context args, or answers Unknown command: cleanup
when no handler is mapped. -/
theorem c1_amended_parse_failure_handling :
    (∀ reg text ctx e, parse_command text = Except.error (ParseExc.valueErr e) →
        route_command reg text ctx = createErrorResponse ("Routing error: " ++ e))
    ∧ (∀ reg text ctx a hname h,
        parse_command text = Except.ok ("cleanup", a) →
        reg.command_map "cleanup" = some hname →
        reg.handlers hname = some h →
        route_command reg text ctx = respOf (h.handle "cleanup" (buildArgs a ctx)))
    ∧ (∀ reg text ctx a,
        parse_command text = Except.ok ("cleanup", a) →
        reg.command_map "cleanup" = none →
        route_command reg text ctx = createErrorResponse "Unknown command: cleanup") := by
  refine ⟨?_, ?_, ?_⟩
  · intro reg text ctx e hp
    exact route_parse_raise reg text ctx (ParseExc.valueErr e) hp
  · intro reg text ctx a hname h hp hcm hh
    exact route_dispatch reg text ctx "cleanup" a hname h hp (by decide) hcm hh
  · intro reg text ctx a hp hcm
    exact route_unknown reg text ctx "cleanup" a hp (by decide) hcm

/-- Witness for the amended C1: the raising set_password parse is converted
to a Routing error, and a cleanup parse failure is dispatched to the
mapped handler. -/
theorem c1_witness :
    route_command emptyRegistry "set_password abc xyz" none
      = createErrorResponse ("Routing error: " ++ invalidIntMsg "xyz")
    ∧ route_command c1Registry "cleanup 5x" none = c1CleanupResp := by
  constructor
  · exact c1_amended_parse_failure_handling.1 emptyRegistry "set_password abc xyz" none
      (invalidIntMsg "xyz") (by decide)
  · exact c1_amended_parse_failure_handling.2.1 c1Registry "cleanup 5x" none none
      "security" c1CleanupHandler (by decide) rfl rfl

/-- Counterexample for C2 as stated.  An authorized update sent before the
bot start time, arriving on the plain-text path, is forwarded to the
router (the routeCall effect) and answered — the freshness gate does not
reject it on that path. -/
theorem c2_claim_counterexample :
    c2StaleUpdate.date < c2Adapter.bot_start_time
    ∧ is_authorized c2Adapter (extract_message_info c2Adapter c2StaleUpdate) = true
    ∧ handle_text_update c2Adapter (some c2Router) c2NoFs c2StaleUpdate
        = [Effect.routeCall "run ls", Effect.sendText "done"] :=
  ⟨by decide, by decide, by decide⟩

/-- Claim C2 as amended: the freshness gate holds on the command path only.
An authorized message whose sent_at precedes the adapter start time is
rejected there with the stale notice and is never forwarded to the router
(the trace holds no routeCall). -/
theorem c2_amended_freshness_gate (a : TelegramAdapter)
    (mh : Option (String → MessageInfo → Resp)) (fe : String → Bool) (u : Update)
    (hauth : is_authorized a (extract_message_info a u) = true)
    (hstale : u.date < a.bot_start_time) :
    handle_command_update a mh fe u
      = [Effect.sendText "Ignoring old message (sent before bot started)."] := by
  have hrec : (extract_message_info a u).is_recent = false := by
    show is_message_recent a u.date = false
    unfold is_message_recent
    simp only [ge_iff_le, decide_eq_false_iff_not, not_le]
    exact hstale
  simp [handle_command_update, hauth, hrec]

/-- Witness for the amended C2: the stale authorized update on the command
path is answered only with the stale notice. -/
theorem c2_witness :
    handle_command_update c2Adapter (some c2Router) c2NoFs c2StaleUpdate
      = [Effect.sendText "Ignoring old message (sent before bot started)."] :=
  c2_amended_freshness_gate c2Adapter (some c2Router) c2NoFs c2StaleUpdate
    (by decide) (by decide)

/-- Claim C5: registering handler B for a command already owned by handler A
reassigns ownership to B; routing any text that parses to that command then
reaches only B (the returned value is B's outcome); unregistering B
reports success, removes that command's mapping entirely rather than
reverting it to A, and removes exactly the commands B currently owns —
ownership at removal time, not B's declared list — leaving every other
mapping unchanged. -/
theorem c5_reregistration_and_unregistration (reg0 : Registry) (A B : Handler)
    (c : String) (hcA : c ∈ A.commands) (hcB : c ∈ B.commands)
    (_hne : A.name ≠ B.name) :
    (register_handler reg0 A).command_map c = some A.name
    ∧ (register_handler (register_handler reg0 A) B).command_map c = some B.name
    ∧ (register_handler (register_handler reg0 A) B).handlers B.name = some B
    ∧ (∀ text ctx a, parse_command text = Except.ok (c, a) → c ≠ "" →
        route_command (register_handler (register_handler reg0 A) B) text ctx
          = respOf (B.handle c (buildArgs a ctx)))
    ∧ (unregister_handler (register_handler (register_handler reg0 A) B) B.name).1 = true
    ∧ (unregister_handler (register_handler (register_handler reg0 A) B) B.name).2.command_map c
        = none
    ∧ (∀ d, (register_handler (register_handler reg0 A) B).command_map d = some B.name →
        (unregister_handler (register_handler (register_handler reg0 A) B) B.name).2.command_map d
          = none)
    ∧ (∀ d n, (register_handler (register_handler reg0 A) B).command_map d = some n →
        n ≠ B.name →
        (unregister_handler (register_handler (register_handler reg0 A) B) B.name).2.command_map d
          = some n) := by
  have h1 : (register_handler reg0 A).command_map c = some A.name :=
    mapCmds_mem A.commands A.name reg0.command_map c hcA
  have h2 : (register_handler (register_handler reg0 A) B).command_map c = some B.name :=
    mapCmds_mem B.commands B.name (register_handler reg0 A).command_map c hcB
  have h3 : (register_handler (register_handler reg0 A) B).handlers B.name = some B := by
    simp [register_handler, mapUpdate]
  have hu := unregister_found (register_handler (register_handler reg0 A) B) B.name B h3
  refine ⟨h1, h2, h3, ?_, ?_, ?_, ?_, ?_⟩
  · intro text ctx a hp hnec
    exact route_dispatch _ text ctx c a B.name B hp hnec h2 h3
  · rw [hu]
  · rw [hu]
    dsimp only
    rw [h2]
    simp
  · intro d hd
    rw [hu]
    dsimp only
    rw [hd]
    simp
  · intro d n hd hn
    rw [hu]
    dsimp only
    rw [hd]
    simp [hn]

/-- Witness for C5: with alpha then beta registered on ping, routing ping
returns beta's response, and unregistering beta removes the ping mapping. -/
theorem c5_witness :
    route_command (register_handler (register_handler emptyRegistry c5HandlerA) c5HandlerB)
        "ping" none = c5RespB
    ∧ (unregister_handler
        (register_handler (register_handler emptyRegistry c5HandlerA) c5HandlerB)
        "beta").2.command_map "ping" = none := by
  have h := c5_reregistration_and_unregistration emptyRegistry c5HandlerA c5HandlerB "ping"
    (by decide) (by decide) (by decide)
  exact ⟨h.2.2.2.1 "ping" none none (by decide) (by decide), h.2.2.2.2.2.1⟩

/-- Claim C8: a message that passes authorization and whose extracted text
strips to the empty string produces the empty effect trace: no outbound
send of any kind and no call into the router. -/
theorem c8_empty_text_no_op (a : TelegramAdapter)
    (mh : Option (String → MessageInfo → Resp)) (fe : String → Bool)
    (info : MessageInfo) (hauth : is_authorized a info = true)
    (hempty : pyStrip info.text = "") :
    handle_platform_message a mh fe info = [] := by
  simp [handle_platform_message, hauth, hempty]

/-- Witness for C8: an authorized whitespace-only message is a silent no-op
even with a message handler installed. -/
theorem c8_witness :
    handle_platform_message c8Adapter (some c8Router) c8NoFs c8Info = [] :=
  c8_empty_text_no_op c8Adapter (some c8Router) c8NoFs c8Info (by decide) (by decide)

/-- Claim C9: delivering a response always starts by sending result.message
as the text reply (for any file-system outcome, so a later deletion
failure cannot change it); when data carries image_path, the image send
with the success- or failure-prefixed caption is in the trace, and — for
an existing file — the os.remove attempt appears exactly when the path
contains the transient root /tmp/. -/
theorem c9_response_delivery (resp : Resp) (fe : String → Bool) (m : String)
    (hm : resp.message = some m) :
    (handle_response resp fe).head? = some (Effect.sendText m)
    ∧ (∀ p, lookupData "image_path" resp.data = some p →
        Effect.sendImage p
            (if resp.success.getD false then picGlyph ++ " " ++ m
             else crossGlyph ++ " " ++ m)
          ∈ handle_response resp fe
        ∧ (fe p = true →
            ((Effect.removeFile p ∈ handle_response resp fe)
              ↔ pyInStr "/tmp/" p = true))) := by
  constructor
  · simp [handle_response, hm]
  · intro p hp
    constructor
    · simp [handle_response, hm, hp]
    · intro hfe
      cases ht : pyInStr "/tmp/" p with
      | true => simp [handle_response, hm, hp, hfe, ht]
      | false => simp [handle_response, hm, hp, hfe, ht]

/-- Witness for C9: a successful response with an artifact under /tmp/ sends
the text first, sends the captioned image, and attempts the deletion. -/
theorem c9_witness :
    (handle_response c9Resp c9Fs).head? = some (Effect.sendText "shot")
    ∧ Effect.sendImage "/tmp/a.png"
        (if c9Resp.success.getD false then picGlyph ++ " " ++ "shot"
         else crossGlyph ++ " " ++ "shot") ∈ handle_response c9Resp c9Fs
    ∧ ((Effect.removeFile "/tmp/a.png" ∈ handle_response c9Resp c9Fs)
        ↔ pyInStr "/tmp/" "/tmp/a.png" = true) := by
  have h := c9_response_delivery c9Resp c9Fs "shot" rfl
  exact ⟨h.1, (h.2 "/tmp/a.png" rfl).1, (h.2 "/tmp/a.png" rfl).2 rfl⟩
